import Mathlib

/-!
# Wikilink resolvers of `src/resolvers.js`

A shallow embedding of the three resolver functions `defaultResolvingFn`,
`defaultEmbedFn` and `defaultImageEmbedFn`, and the properties their
specification states about them.

JavaScript strings are embedded as `String`; a value that may be `null` or
`undefined` is an `Option`; the `href` of a link, which is a string or the
boolean `false`, is the type `Href`.
-/

namespace Resolvers

/-! ## Strings -/

/-- `s.startsWith(p)` of JavaScript: `p` is a prefix of `s`. -/
def startsWith (s p : String) : Bool :=
  p.data.isPrefixOf s.data

/-! ## `encodeHTML` of the `entities` package -/

/-- The characters `encodeHTML` replaces: tab, newline, form feed, the ASCII
punctuation ranges `!`..`,`, `.`, `/`, `:`..`@`, `[`..the backquote, the
braces and the bar between them, and every character from U+0080 on. -/
def htmlReplacer (c : Char) : Bool :=
  let n := c.toNat
  n = 9 || n = 10 || n = 12 || (33 ≤ n && n ≤ 44) || n = 46 || n = 47 ||
    (58 ≤ n && n ≤ 64) || (91 ≤ n && n ≤ 96) || (123 ≤ n && n ≤ 125) || 128 ≤ n

/-- The entity written for a replaced character: the names of the five
characters the specification lists, a hexadecimal numeric reference for
every other one. -/
def htmlEntity (c : Char) : String :=
  if c = '&' then "&amp;"
  else if c = '<' then "&lt;"
  else if c = '>' then "&gt;"
  else if c = '"' then "&quot;"
  else if c = Char.ofNat 39 then "&apos;"
  else "&#x" ++ String.mk (Nat.toDigits 16 c.toNat) ++ ";"

/-- One character of the output of `encodeHTML`. -/
def encodeChar (c : Char) : List Char :=
  if htmlReplacer c then (htmlEntity c).data else [c]

/-- Modelled from the spec: `encodeHTML`, imported from the external `entities`
package (resolvers.js line 2), whose source is not part of the repository.
The specification requires it to escape every character that is unsafe in
HTML text, at minimum `&`, `<`, `>`, `"` and the apostrophe. The model
replaces every character of the class `htmlReplacer` by a character
reference and copies the others. The package's table of entity names is
absent, so only the five characters the specification names get a named
entity here, and every other replaced character its numeric reference. -/
def encodeHTML (s : String) : String :=
  String.mk (s.data.flatMap encodeChar)

/-! ## Data model -/

/-- JavaScript values held by page-data fields and by options: `undefined`,
`null`, booleans and strings. -/
inductive Val where
  | undefined : Val
  | null : Val
  | bool (b : Bool) : Val
  | str (s : String) : Val
  deriving DecidableEq, Repr

/-- String conversion of a value inside a template literal. -/
def Val.toStr : Val → String
  | .undefined => "undefined"
  | .null => "null"
  | .bool true => "true"
  | .bool false => "false"
  | .str s => s

/-- An object as the sequence of its property definitions; as in an object
literal, a later definition of a key overrides an earlier one. -/
abbrev Obj := List (String × Val)

/-- Property read `o[k]`: the last definition of `k`, `none` when `o` has no
own property `k`. -/
def Obj.get : Obj → String → Option Val
  | [], _ => none
  | (k', v) :: o, k =>
    match Obj.get o k with
    | some w => some w
    | none => if k' = k then some v else none

/-- Errors a call can fail with: the `TypeError` of a property read on
`undefined`, or an error thrown by an external service. -/
inductive Err where
  | typeError : Err
  | thrown (e : String) : Err
  deriving DecidableEq, Repr

/-- `o.hasOwnProperty(k)`, called through the object as on lines 44 and 48.
An own property named `hasOwnProperty` shadows the inherited method; no
value of `Val` is a function, so the call then throws a `TypeError`.
Otherwise the inherited method tells whether `k` is an own property. -/
def Obj.hasOwnProperty (o : Obj) (k : String) : Except Err Bool :=
  match Obj.get o "hasOwnProperty" with
  | some _ => .error .typeError
  | none => .ok (Obj.get o k).isSome

/-- What `page.template.read()` resolves to. -/
structure Template where
  content : String
  deriving DecidableEq, Repr

/-- The target page: `data`, `page.templateSyntax`, and the outcome of
`template.read()`. -/
structure Page where
  data : Obj
  templateSyntax : Val
  read : Except Err Template

/-- The `href` of a link: the boolean `false` or a string. -/
inductive Href where
  | no : Href
  | url (s : String) : Href
  deriving DecidableEq, Repr

/-- String conversion of an `href` inside a template literal. -/
def Href.toStr : Href → String
  | .no => "false"
  | .url s => s

/-- The resolved wikilink. `none` stands for a field that is `null` or
`undefined`. -/
structure WikilinkMeta where
  name : String
  title : Option String
  href : Href
  anchor : Option String
  «exists» : Bool
  page : Option Page
  link : String

/-- Handle of `interlinker.templateConfig`, opaque to the resolvers. -/
abbrev TemplateConfig := Nat

/-- Handle of `interlinker.extensionMap`, opaque to the resolvers. -/
abbrev ExtensionMap := Nat

/-- The options the resolvers read from `interlinker.opts`. -/
structure Opts where
  stubUrl : String
  imagesFolder : Option String
  layoutKey : String
  layoutTemplateLangKey : String
  defaultLayout : Val
  defaultLayoutLang : Val

/-- The `interlinker` argument of the resolvers. -/
structure Interlinker where
  opts : Opts
  templateConfig : Option TemplateConfig
  extensionMap : Option ExtensionMap

/-- JavaScript truthiness of an optional string: present and not empty. -/
def truthy : Option String → Bool
  | none => false
  | some s => s ≠ ""

/-! ## Link resolver -/

/-- The display text, `encodeHTML(link.title ?? link.name)` (line 13). -/
def linkText (link : WikilinkMeta) : String :=
  encodeHTML (link.title.getD link.name)

/-- The local `href` after lines 14 to 18: `link.href`, replaced by the
template literal with the anchor when `link.anchor` is truthy. -/
def effectiveHref (link : WikilinkMeta) : Href :=
  if truthy link.anchor then
    .url (link.href.toStr ++ "#" ++ link.anchor.getD "")
  else link.href

/-- Embedding of `defaultResolvingFn` (lines 12 to 28). -/
def defaultResolvingFn (link : WikilinkMeta) (_currentPage : Page)
    (interlinker : Interlinker) : String :=
  let text := linkText link
  match effectiveHref link with
  | .no => link.link
  | .url href =>
    if startsWith href interlinker.opts.stubUrl then
      "<span title=\"" ++ text ++ " was not created yet\" class=\"dead-wikilink\">" ++ text ++ "</span>"
    else
      "<a href=\"" ++ href ++ "\" class=\"wikilink\">" ++ text ++ "</a>"

/-! ## Embed resolver -/

/-- A compiled template: the function the compiler resolves to, from the
render data to the rendered text. -/
abbrev TemplateFn := Obj → Except Err String

/-- The compile function `EleventyRenderPlugin.String` (line 58): source,
language and the two services to a compiled template. -/
abbrev Compiler :=
  String → Val → TemplateConfig → ExtensionMap → Except Err TemplateFn

/-- A call to an external service, in the order it is made. -/
inductive Call where
  | read : Call
  | compile (src : String) (language : Val) (templateConfig : TemplateConfig)
      (extensionMap : ExtensionMap) : Call
  | render (data : Obj) : Call
  deriving DecidableEq, Repr

/-- The outcome of `defaultEmbedFn`: the external calls made, and the value
the promise resolves to (`none` for `undefined`) or the error it rejects
with. -/
structure Outcome where
  calls : List Call
  result : Except Err (Option String)

/-- The `layout` of lines 44 to 46. -/
def embedLayout (page : Page) (opts : Opts) : Except Err Val :=
  match Obj.hasOwnProperty page.data opts.layoutKey with
  | .error e => .error e
  | .ok true => .ok ((Obj.get page.data opts.layoutKey).getD Val.undefined)
  | .ok false => .ok opts.defaultLayout

/-- The `language` of lines 48 to 52. -/
def embedLanguage (page : Page) (opts : Opts) : Except Err Val :=
  match Obj.hasOwnProperty page.data opts.layoutTemplateLangKey with
  | .error e => .error e
  | .ok true => .ok ((Obj.get page.data opts.layoutTemplateLangKey).getD Val.undefined)
  | .ok false =>
    .ok (if opts.defaultLayoutLang = Val.null then page.templateSyntax
         else opts.defaultLayoutLang)

/-- The template source of line 73, which invokes the layout. -/
def layoutTpl (layout : Val) : String :=
  "\x7b% layout \"" ++ layout.toStr ++ "\" %\x7d"

/-- Embedding of `defaultEmbedFn` (lines 38 to 81). -/
def defaultEmbedFn (compiler : Compiler) (link : WikilinkMeta) (_currentPage : Page)
    (interlinker : Interlinker) : Outcome :=
  match link.«exists», interlinker.templateConfig, interlinker.extensionMap with
  | true, some templateConfig, some extensionMap =>
    match link.page with
    | none => ⟨[], .error .typeError⟩
    | some page =>
      match page.read with
      | .error e => ⟨[.read], .error e⟩
      | .ok template =>
        match embedLayout page interlinker.opts with
        | .error e => ⟨[.read], .error e⟩
        | .ok layout =>
          match embedLanguage page interlinker.opts with
          | .error e => ⟨[.read], .error e⟩
          | .ok language =>
            let c₁ := Call.compile template.content language templateConfig extensionMap
            match compiler template.content language templateConfig extensionMap with
            | .error e => ⟨[.read, c₁], .error e⟩
            | .ok contentFn =>
              let r₁ := Call.render page.data
              match contentFn page.data with
              | .error e => ⟨[.read, c₁, r₁], .error e⟩
              | .ok content =>
                if layout = Val.null then ⟨[.read, c₁, r₁], .ok (some content)⟩
                else
                  let tpl := layoutTpl layout
                  let c₂ := Call.compile tpl language templateConfig extensionMap
                  match compiler tpl language templateConfig extensionMap with
                  | .error e => ⟨[.read, c₁, r₁, c₂], .error e⟩
                  | .ok tplFn =>
                    let data := ("content", Val.str content) :: page.data
                    ⟨[.read, c₁, r₁, c₂, .render data], (tplFn data).map some⟩
  | _, _, _ => ⟨[], .ok none⟩

/-! ## Image embed resolver -/

/-- `s.split('/')` on the characters of `s`. -/
def splitSlash : List Char → List (List Char)
  | [] => [[]]
  | c :: cs =>
    match splitSlash cs with
    | [] => if c = '/' then [[], []] else [[c]]
    | seg :: segs => if c = '/' then [] :: seg :: segs else (c :: seg) :: segs

/-- The regular expression `\.[^/.]+$` matches at the head of the input: a
dot, then up to the end one or more characters other than `/` and `.`. -/
def extMatches : List Char → Bool
  | [] => false
  | c :: cs => c = '.' && !cs.isEmpty && cs.all (fun x => x ≠ '/' && x ≠ '.')

/-- `s.replace(/\.[^/.]+$/, "")`: the input up to the first position the
expression matches at, the whole input when it matches nowhere. -/
def stripExt : List Char → List Char
  | [] => []
  | c :: cs => if extMatches (c :: cs) then [] else c :: stripExt cs

/-- The `imagePath` of lines 94 to 96. -/
def imagePath (link : WikilinkMeta) (opts : Opts) : String :=
  if link.name.data.contains '/' then "/" ++ link.name
  else (if truthy opts.imagesFolder then opts.imagesFolder.getD "" else "/images/") ++ link.name

/-- The `filename` of line 99. -/
def filename (link : WikilinkMeta) : String :=
  String.mk (stripExt ((splitSlash link.name.data).getLastD []))

/-- The `altText` of line 100. -/
def altText (link : WikilinkMeta) : String :=
  encodeHTML (if truthy link.title then link.title.getD "" else filename link)

/-- Embedding of `defaultImageEmbedFn` (lines 91 to 103). -/
def defaultImageEmbedFn (link : WikilinkMeta) (_currentPage : Page)
    (interlinker : Interlinker) : String :=
  "<img src=\"" ++ imagePath link interlinker.opts ++ "\" alt=\"" ++ altText link ++ "\" />"

/-- `xs.pop()` on the array of segments: the last element, `undefined` (here
`none`) when the array is empty. -/
def pop (xs : List (List Char)) : Option (List Char) :=
  xs.getLast?

/-- Lines 91 to 103 step by step, with the one step that can throw kept:
`pop()` of an empty array is `undefined`, and `.replace` on `undefined` is a
`TypeError`. `defaultImageEmbedFn` above leaves that case out. -/
def defaultImageEmbedFnSteps (link : WikilinkMeta) (_currentPage : Page)
    (interlinker : Interlinker) : Except Err String :=
  let imagePath :=
    if link.name.data.contains '/' then "/" ++ link.name
    else (if truthy interlinker.opts.imagesFolder then interlinker.opts.imagesFolder.getD ""
          else "/images/") ++ link.name
  match pop (splitSlash link.name.data) with
  | none => .error .typeError
  | some segment =>
    let filename := String.mk (stripExt segment)
    let altText := encodeHTML (if truthy link.title then link.title.getD "" else filename)
    .ok ("<img src=\"" ++ imagePath ++ "\" alt=\"" ++ altText ++ "\" />")

/-! ## Unsafe characters, and the inputs of the concrete evaluations -/

/-- The characters that must not occur raw in HTML text or in an attribute
value: `<`, `>`, the double quote and the apostrophe. -/
def rawUnsafe (c : Char) : Prop :=
  c = '<' ∨ c = '>' ∨ c = '"' ∨ c = Char.ofNat 39

instance (c : Char) : Decidable (rawUnsafe c) := by
  unfold rawUnsafe; infer_instance

/-- The page passed as `currentPage` in the concrete evaluations; no resolver
reads it. -/
def somePage : Page := ⟨[], Val.str "md", Except.ok ⟨""⟩⟩

/-- An `interlinker` with the given stub prefix and every other option at
its default. -/
def stubOpts (stubUrl : String) : Interlinker :=
  ⟨⟨stubUrl, none, "embedLayout", "embedLayoutLanguage", Val.null, Val.null⟩, some 0, some 0⟩

/-- A compiler for the concrete evaluations. The layout directive compiles
to a template that renders its `content` variable between square brackets;
every other source compiles to a template that renders the source inside a
paragraph. -/
def demoCompiler : Compiler := fun src _ _ _ =>
  if startsWith src "\x7b% layout" then
    Except.ok (fun data => Except.ok ("[" ++ ((Obj.get data "content").getD Val.undefined).toStr ++ "]"))
  else
    Except.ok (fun _ => Except.ok ("<p>" ++ src ++ "</p>"))

/-- A target page with source `Hello` and the given data. -/
def helloPage (data : Obj) : Page := ⟨data, Val.str "md", Except.ok ⟨"Hello"⟩⟩

/-- An existing link to the given target page. -/
def linkTo (page : Page) : WikilinkMeta :=
  ⟨"Hello", none, Href.url "/hello/", none, true, some page, "![[Hello]]"⟩

/-! ## Lemmas on strings and on `encodeHTML` -/

theorem data_append3 (a b c : String) : (a ++ b ++ c).data = a.data ++ b.data ++ c.data := by
  simp [String.data_append]

theorem encodeHTML_append (a b : String) :
    encodeHTML (a ++ b) = encodeHTML a ++ encodeHTML b := by
  apply String.ext
  simp [encodeHTML, String.data_append, List.flatMap_append]

theorem ite_mem_of {α : Type} (p : Prop) [Decidable p] (a b : α) (l : List α)
    (ha : a ∈ l) (hb : b ∈ l) : (if p then a else b) ∈ l := by
  split <;> assumption

theorem digitChar_mem (m : Nat) : Nat.digitChar m ∈ "0123456789abcdef*".data := by
  unfold Nat.digitChar
  repeat' apply ite_mem_of
  all_goals decide

theorem digitChar_safe (m : Nat) : ¬ rawUnsafe (Nat.digitChar m) := by
  have h : ∀ c ∈ "0123456789abcdef*".data, ¬ rawUnsafe c := by decide
  exact h _ (digitChar_mem m)

theorem toDigitsCore_safe (fuel : Nat) : ∀ (n : Nat) (ds : List Char),
    (∀ c ∈ ds, ¬ rawUnsafe c) → ∀ c ∈ Nat.toDigitsCore 16 fuel n ds, ¬ rawUnsafe c := by
  induction fuel with
  | zero => intro n ds h; simpa [Nat.toDigitsCore] using h
  | succ fuel ih =>
    intro n ds h
    have hcons : ∀ c ∈ Nat.digitChar (n % 16) :: ds, ¬ rawUnsafe c := by
      intro c hc
      rcases List.mem_cons.mp hc with rfl | hc
      · exact digitChar_safe _
      · exact h c hc
    unfold Nat.toDigitsCore
    by_cases h0 : n / 16 = 0
    · simpa [h0] using hcons
    · simpa [h0] using ih _ _ hcons

theorem htmlEntity_safe (c : Char) : ∀ x ∈ (htmlEntity c).data, ¬ rawUnsafe x := by
  unfold htmlEntity
  split_ifs
  · decide
  · decide
  · decide
  · decide
  · decide
  · intro x hx
    rw [data_append3] at hx
    simp only [List.mem_append] at hx
    rcases hx with (hx | hx) | hx
    · revert x; decide
    · exact toDigitsCore_safe _ _ _ (by simp) x hx
    · revert x; decide

theorem htmlReplacer_of_rawUnsafe (c : Char) (h : rawUnsafe c) : htmlReplacer c = true := by
  rcases h with rfl | rfl | rfl | rfl <;> decide

theorem encodeHTML_safe (s : String) : ∀ x ∈ (encodeHTML s).data, ¬ rawUnsafe x := by
  intro x hx
  simp only [encodeHTML, List.mem_flatMap] at hx
  obtain ⟨c, -, hx⟩ := hx
  unfold encodeChar at hx
  split_ifs at hx with hc
  · exact htmlEntity_safe c x hx
  · simp only [List.mem_singleton] at hx
    subst hx
    intro hu
    exact hc (htmlReplacer_of_rawUnsafe x hu)

/-! ## Lemmas on `defaultEmbedFn` -/

theorem Obj.get_cons (k' : String) (v : Val) (o : Obj) (k : String) :
    Obj.get ((k', v) :: o) k =
      match Obj.get o k with
      | some w => some w
      | none => if k' = k then some v else none := rfl

theorem embedLayout_eq (page : Page) (opts : Opts)
    (hown : Obj.get page.data "hasOwnProperty" = none) :
    embedLayout page opts =
      Except.ok (match Obj.get page.data opts.layoutKey with
        | some v => v
        | none => opts.defaultLayout) := by
  unfold embedLayout Obj.hasOwnProperty
  rw [hown]
  cases Obj.get page.data opts.layoutKey <;> rfl

theorem embedLanguage_eq (page : Page) (opts : Opts)
    (hown : Obj.get page.data "hasOwnProperty" = none) :
    embedLanguage page opts =
      Except.ok (match Obj.get page.data opts.layoutTemplateLangKey with
        | some v => v
        | none => if opts.defaultLayoutLang = Val.null then page.templateSyntax
                  else opts.defaultLayoutLang) := by
  unfold embedLanguage Obj.hasOwnProperty
  rw [hown]
  cases Obj.get page.data opts.layoutTemplateLangKey <;> rfl

theorem embedLayout_shadowed (page : Page) (opts : Opts)
    (hown : Obj.get page.data "hasOwnProperty" ≠ none) :
    embedLayout page opts = Except.error Err.typeError := by
  unfold embedLayout Obj.hasOwnProperty
  cases h : Obj.get page.data "hasOwnProperty" with
  | none => exact absurd h hown
  | some v => rfl

theorem not_shadowed_of_layout (page : Page) (opts : Opts) (layout : Val)
    (h : embedLayout page opts = Except.ok layout) :
    Obj.get page.data "hasOwnProperty" = none := by
  by_contra hown
  rw [embedLayout_shadowed page opts hown] at h
  cases h

/-- The run of `defaultEmbedFn` when a field named `hasOwnProperty` shadows
the method: the read is made, then line 44 throws. -/
theorem defaultEmbedFn_shadowed (compiler : Compiler) (link : WikilinkMeta)
    (currentPage : Page) (interlinker : Interlinker) (cfg : TemplateConfig)
    (ext : ExtensionMap) (page : Page) (template : Template)
    (hex : link.«exists» = true) (hcfg : interlinker.templateConfig = some cfg)
    (hext : interlinker.extensionMap = some ext) (hpage : link.page = some page)
    (hread : page.read = Except.ok template)
    (hown : Obj.get page.data "hasOwnProperty" ≠ none) :
    defaultEmbedFn compiler link currentPage interlinker
      = ⟨[Call.read], Except.error Err.typeError⟩ := by
  unfold defaultEmbedFn
  simp only [hex, hcfg, hext, hpage, hread, embedLayout_shadowed page interlinker.opts hown]

/-- The run of `defaultEmbedFn` that stops at a failing compile of the page
content. -/
theorem defaultEmbedFn_compile_error (compiler : Compiler) (link : WikilinkMeta)
    (currentPage : Page) (interlinker : Interlinker) (cfg : TemplateConfig)
    (ext : ExtensionMap) (page : Page) (template : Template) (layout language : Val) (e : Err)
    (hex : link.«exists» = true) (hcfg : interlinker.templateConfig = some cfg)
    (hext : interlinker.extensionMap = some ext) (hpage : link.page = some page)
    (hread : page.read = Except.ok template)
    (hlayout : embedLayout page interlinker.opts = Except.ok layout)
    (hlang : embedLanguage page interlinker.opts = Except.ok language)
    (hcomp : compiler template.content language cfg ext = Except.error e) :
    defaultEmbedFn compiler link currentPage interlinker
      = ⟨[Call.read, Call.compile template.content language cfg ext], Except.error e⟩ := by
  unfold defaultEmbedFn
  simp only [hex, hcfg, hext, hpage, hread, hlayout, hlang, hcomp]

/-- The run of `defaultEmbedFn` up to the render of the page content. -/
theorem defaultEmbedFn_content (compiler : Compiler) (link : WikilinkMeta)
    (currentPage : Page) (interlinker : Interlinker) (cfg : TemplateConfig)
    (ext : ExtensionMap) (page : Page) (template : Template) (layout language : Val)
    (contentFn : TemplateFn)
    (hex : link.«exists» = true) (hcfg : interlinker.templateConfig = some cfg)
    (hext : interlinker.extensionMap = some ext) (hpage : link.page = some page)
    (hread : page.read = Except.ok template)
    (hlayout : embedLayout page interlinker.opts = Except.ok layout)
    (hlang : embedLanguage page interlinker.opts = Except.ok language)
    (hcomp : compiler template.content language cfg ext = Except.ok contentFn) :
    defaultEmbedFn compiler link currentPage interlinker =
      match contentFn page.data with
      | Except.error e =>
        ⟨[Call.read, Call.compile template.content language cfg ext,
          Call.render page.data], Except.error e⟩
      | Except.ok content =>
        if layout = Val.null then
          ⟨[Call.read, Call.compile template.content language cfg ext,
            Call.render page.data], Except.ok (some content)⟩
        else
          match compiler (layoutTpl layout) language cfg ext with
          | Except.error e =>
            ⟨[Call.read, Call.compile template.content language cfg ext,
              Call.render page.data,
              Call.compile (layoutTpl layout) language cfg ext], Except.error e⟩
          | Except.ok tplFn =>
            ⟨[Call.read, Call.compile template.content language cfg ext,
              Call.render page.data,
              Call.compile (layoutTpl layout) language cfg ext,
              Call.render (("content", Val.str content) :: page.data)],
             (tplFn (("content", Val.str content) :: page.data)).map some⟩ := by
  unfold defaultEmbedFn
  simp only [hex, hcfg, hext, hpage, hread, hlayout, hlang, hcomp]

/-! ## Link resolver: claims C1 to C5 -/

/-- C1, at the failing input: for the link `[[Home#top]]` with `href` equal
to `false` and anchor `top`, the anchor is appended before the test of line
20, so `defaultResolvingFn` does not return `link.link` but an anchor tag on
the text `false#top`. -/
theorem C1_false_href_with_anchor_is_linked :
    defaultResolvingFn ⟨"Home", none, Href.no, some "top", false, none, "[[Home#top]]"⟩
        somePage (stubOpts "/stub/")
      = "<a href=\"false#top\" class=\"wikilink\">Home</a>"
    ∧ defaultResolvingFn ⟨"Home", none, Href.no, some "top", false, none, "[[Home#top]]"⟩
        somePage (stubOpts "/stub/") ≠ "[[Home#top]]" := by
  decide

/-- C2: when `href` is a string and the effective href (with `#anchor`
appended for a non-empty anchor) starts with `opts.stubUrl`, the result is
the `dead-wikilink` span on the encoded title, or the encoded name when the
title is absent, whatever `link.exists` is. -/
theorem C2_stub_href_gives_dead_span (link : WikilinkMeta) (currentPage : Page)
    (interlinker : Interlinker) (h : String) (hhref : link.href = Href.url h)
    (hstub : startsWith
      (match link.anchor with
        | some a => if a = "" then h else h ++ "#" ++ a
        | none => h) interlinker.opts.stubUrl = true) :
    defaultResolvingFn link currentPage interlinker
      = "<span title=\"" ++
          (match link.title with
            | some t => encodeHTML t
            | none => encodeHTML link.name)
          ++ " was not created yet\" class=\"dead-wikilink\">" ++
          (match link.title with
            | some t => encodeHTML t
            | none => encodeHTML link.name)
          ++ "</span>" := by
  obtain ⟨name, title, href, anchor, ex, page, text⟩ := link
  simp only at hhref hstub
  subst hhref
  rcases anchor with _ | a
  · cases title <;>
      simp [defaultResolvingFn, effectiveHref, truthy, linkText] at hstub ⊢ <;> simp [hstub]
  · by_cases ha : a = ""
    · cases title <;>
        simp [ha, defaultResolvingFn, effectiveHref, truthy, linkText] at hstub ⊢ <;> simp [hstub]
    · cases title <;>
        simp [ha, defaultResolvingFn, effectiveHref, truthy, linkText, Href.toStr] at hstub ⊢ <;>
        simp [hstub]

/-- C2 at the stub link `/stub/draft` with anchor `intro`, for a target that
exists. -/
theorem C2_stub_href_gives_dead_span_witness :
    defaultResolvingFn ⟨"Draft", none, Href.url "/stub/draft", some "intro", true, none, "[[Draft]]"⟩
        somePage (stubOpts "/stub/")
      = "<span title=\"Draft was not created yet\" class=\"dead-wikilink\">Draft</span>" :=
  C2_stub_href_gives_dead_span
    ⟨"Draft", none, Href.url "/stub/draft", some "intro", true, none, "[[Draft]]"⟩
    somePage (stubOpts "/stub/") "/stub/draft" rfl (by decide)

/-- C3: when `href` is a string and the effective href `E` (with `#anchor`
appended for a non-empty anchor) does not start with `opts.stubUrl`, the
result is the `wikilink` anchor tag with `E` inserted as it is and the
encoded title, or the encoded name when the title is absent, as its text. -/
theorem C3_other_href_gives_anchor_tag (link : WikilinkMeta) (currentPage : Page)
    (interlinker : Interlinker) (h : String) (hhref : link.href = Href.url h)
    (hstub : startsWith
      (match link.anchor with
        | some a => if a = "" then h else h ++ "#" ++ a
        | none => h) interlinker.opts.stubUrl = false) :
    defaultResolvingFn link currentPage interlinker
      = "<a href=\"" ++
          (match link.anchor with
            | some a => if a = "" then h else h ++ "#" ++ a
            | none => h)
          ++ "\" class=\"wikilink\">" ++
          (match link.title with
            | some t => encodeHTML t
            | none => encodeHTML link.name)
          ++ "</a>" := by
  obtain ⟨name, title, href, anchor, ex, page, text⟩ := link
  simp only at hhref hstub
  subst hhref
  rcases anchor with _ | a
  · cases title <;>
      simp [defaultResolvingFn, effectiveHref, truthy, linkText] at hstub ⊢ <;> simp [hstub]
  · by_cases ha : a = ""
    · cases title <;>
        simp [ha, defaultResolvingFn, effectiveHref, truthy, linkText] at hstub ⊢ <;> simp [hstub]
    · cases title <;>
        simp [ha, defaultResolvingFn, effectiveHref, truthy, linkText, Href.toStr] at hstub ⊢ <;>
        simp [hstub]

/-- C3 at the link named `Home` with href `/home` and anchor `top`, stub
prefix `/stub/`. -/
theorem C3_other_href_gives_anchor_tag_witness :
    defaultResolvingFn ⟨"Home", none, Href.url "/home", some "top", true, none, "[[Home#top]]"⟩
        somePage (stubOpts "/stub/")
      = "<a href=\"/home#top\" class=\"wikilink\">Home</a>" :=
  C3_other_href_gives_anchor_tag
    ⟨"Home", none, Href.url "/home", some "top", true, none, "[[Home#top]]"⟩
    somePage (stubOpts "/stub/") "/home" rfl (by decide)

/-- C4: for a string href the link resolver writes the encoding of the
title, or of the name when the title is absent, into its span (text and
title attribute) or its anchor tag; the image resolver writes the encoding
of the title, or of the filename when the title is absent or empty, as the
alt text. No output of `encodeHTML` contains a raw `<`, `>`, double quote
or apostrophe, and each `&`, `<`, `>`, double quote and apostrophe of the
input is replaced by its entity. -/
theorem C4_display_text_is_escaped (link : WikilinkMeta) (currentPage : Page)
    (interlinker : Interlinker) :
    (∀ h : String, link.href = Href.url h →
      defaultResolvingFn link currentPage interlinker
        = "<span title=\"" ++
            encodeHTML (match link.title with
              | some t => t
              | none => link.name)
            ++ " was not created yet\" class=\"dead-wikilink\">" ++
            encodeHTML (match link.title with
              | some t => t
              | none => link.name)
            ++ "</span>" ∨
      ∃ E, defaultResolvingFn link currentPage interlinker
        = "<a href=\"" ++ E ++ "\" class=\"wikilink\">" ++
            encodeHTML (match link.title with
              | some t => t
              | none => link.name)
            ++ "</a>") ∧
    defaultImageEmbedFn link currentPage interlinker
      = "<img src=\"" ++ imagePath link interlinker.opts ++ "\" alt=\"" ++
          encodeHTML (match link.title with
            | some t => if t = "" then filename link else t
            | none => filename link)
          ++ "\" />" ∧
    (∀ s : String, ∀ x ∈ (encodeHTML s).data,
      x ≠ '<' ∧ x ≠ '>' ∧ x ≠ '"' ∧ x ≠ Char.ofNat 39) ∧
    (∀ a b : String,
      encodeHTML (a ++ "&" ++ b) = encodeHTML a ++ "&amp;" ++ encodeHTML b ∧
      encodeHTML (a ++ "<" ++ b) = encodeHTML a ++ "&lt;" ++ encodeHTML b ∧
      encodeHTML (a ++ ">" ++ b) = encodeHTML a ++ "&gt;" ++ encodeHTML b ∧
      encodeHTML (a ++ "\"" ++ b) = encodeHTML a ++ "&quot;" ++ encodeHTML b ∧
      encodeHTML (a ++ String.singleton (Char.ofNat 39) ++ b)
        = encodeHTML a ++ "&apos;" ++ encodeHTML b) := by
  have safe : ∀ s : String, ∀ x ∈ (encodeHTML s).data,
      x ≠ '<' ∧ x ≠ '>' ∧ x ≠ '"' ∧ x ≠ Char.ofNat 39 := by
    intro s x hx
    have h := encodeHTML_safe s x hx
    unfold rawUnsafe at h
    tauto
  have htext : linkText link = encodeHTML (match link.title with
      | some t => t
      | none => link.name) := by
    unfold linkText
    cases link.title <;> rfl
  refine ⟨?_, ?_, safe, ?_⟩
  · intro h hhref
    have hE : ∃ E, effectiveHref link = Href.url E := by
      unfold effectiveHref
      split_ifs
      · exact ⟨_, rfl⟩
      · exact ⟨h, hhref⟩
    obtain ⟨E, hE⟩ := hE
    rw [← htext]
    unfold defaultResolvingFn
    simp only [hE]
    by_cases hs : startsWith E interlinker.opts.stubUrl = true
    · left; simp [hs]
    · right; exact ⟨E, by simp [hs]⟩
  · unfold defaultImageEmbedFn altText
    rcases ht : link.title with _ | t
    · simp [truthy]
    · by_cases he : t = "" <;> simp [truthy, he]
  · intro a b
    simp only [encodeHTML_append]
    refine ⟨?_, ?_, ?_, ?_, ?_⟩ <;> rfl

/-- C4 at the title `<b> "Q" & y` on a stub link and on the image
`q.png`: the span and the `img` tag carry the title with its `<`, `>`,
quotes and `&` written as entities. -/
theorem C4_display_text_is_escaped_witness :
    (defaultResolvingFn ⟨"q.png", some "<b> \"Q\" & y", Href.url "/stub/q", none, false, none, "[[q]]"⟩
        somePage (stubOpts "/stub/")
      = "<span title=\"&lt;b&gt; &quot;Q&quot; &amp; y was not created yet\" class=\"dead-wikilink\">&lt;b&gt; &quot;Q&quot; &amp; y</span>" ∨
      ∃ E, defaultResolvingFn
          ⟨"q.png", some "<b> \"Q\" & y", Href.url "/stub/q", none, false, none, "[[q]]"⟩
          somePage (stubOpts "/stub/")
        = "<a href=\"" ++ E ++ "\" class=\"wikilink\">" ++ "&lt;b&gt; &quot;Q&quot; &amp; y"
            ++ "</a>") ∧
    defaultImageEmbedFn ⟨"q.png", some "<b> \"Q\" & y", Href.url "/stub/q", none, false, none, "[[q]]"⟩
        somePage (stubOpts "/stub/")
      = "<img src=\"/images/q.png\" alt=\"&lt;b&gt; &quot;Q&quot; &amp; y\" />" :=
  ⟨(C4_display_text_is_escaped
      ⟨"q.png", some "<b> \"Q\" & y", Href.url "/stub/q", none, false, none, "[[q]]"⟩
      somePage (stubOpts "/stub/")).1 "/stub/q" rfl,
   (C4_display_text_is_escaped
      ⟨"q.png", some "<b> \"Q\" & y", Href.url "/stub/q", none, false, none, "[[q]]"⟩
      somePage (stubOpts "/stub/")).2.1⟩

/-- C5: for the link with title `A & B`, href `/stub/a-b`, no anchor, and
stub prefix `/stub/`, whatever its other fields are, the result is the
`dead-wikilink` span on `A &amp; B`. -/
theorem C5_stub_scenario (name text : String) (ex : Bool) (page : Option Page)
    (currentPage : Page) (imagesFolder : Option String) (layoutKey layoutTemplateLangKey : String)
    (defaultLayout defaultLayoutLang : Val) (templateConfig : Option TemplateConfig)
    (extensionMap : Option ExtensionMap) :
    defaultResolvingFn ⟨name, some "A & B", Href.url "/stub/a-b", none, ex, page, text⟩
        currentPage
        ⟨⟨"/stub/", imagesFolder, layoutKey, layoutTemplateLangKey, defaultLayout,
          defaultLayoutLang⟩, templateConfig, extensionMap⟩
      = "<span title=\"A &amp; B was not created yet\" class=\"dead-wikilink\">A &amp; B</span>" := by
  rfl

/-! ## Embed resolver: claims C6 to C10 -/

/-- C6: when `link.exists` is false, or `templateConfig` or `extensionMap`
is absent, `defaultEmbedFn` resolves to `undefined` and calls neither the
template read, nor the compiler, nor a compiled template. -/
theorem C6_embed_short_circuit (compiler : Compiler) (link : WikilinkMeta)
    (currentPage : Page) (interlinker : Interlinker)
    (h : link.«exists» = false ∨ interlinker.templateConfig = none ∨
      interlinker.extensionMap = none) :
    (defaultEmbedFn compiler link currentPage interlinker).result = Except.ok none ∧
    (defaultEmbedFn compiler link currentPage interlinker).calls = [] := by
  unfold defaultEmbedFn
  rcases h with h | h | h
  · simp [h]
  · rw [h]
    cases link.«exists» <;> simp
  · rw [h]
    cases link.«exists» <;> cases interlinker.templateConfig <;> simp

/-- C6 at a link that does not exist but carries a readable page, with both
services present. -/
theorem C6_embed_short_circuit_witness :
    (defaultEmbedFn demoCompiler
        ⟨"Hello", none, Href.url "/hello/", none, false, some (helloPage []), "![[Hello]]"⟩
        somePage (stubOpts "/stub/")).result = Except.ok none ∧
    (defaultEmbedFn demoCompiler
        ⟨"Hello", none, Href.url "/hello/", none, false, some (helloPage []), "![[Hello]]"⟩
        somePage (stubOpts "/stub/")).calls = [] :=
  C6_embed_short_circuit demoCompiler
    ⟨"Hello", none, Href.url "/hello/", none, false, some (helloPage []), "![[Hello]]"⟩
    somePage (stubOpts "/stub/") (Or.inl rfl)

/-- C7, at the failing input: the target page has the layout `embed` and a
data field named `content`. The layout template is rendered on
`{content, ...page.data}`, in which the page field overrides the compiled
embed content `<p>Hello</p>`, so the layout renders the page field. -/
theorem C7_page_content_field_overrides_embed :
    (defaultEmbedFn demoCompiler
        (linkTo (helloPage [("embedLayout", Val.str "embed"), ("content", Val.str "front matter")]))
        somePage (stubOpts "/stub/")).result = Except.ok (some "[front matter]") ∧
    (defaultEmbedFn demoCompiler
        (linkTo (helloPage [("embedLayout", Val.str "embed"), ("content", Val.str "front matter")]))
        somePage (stubOpts "/stub/")).calls =
      [Call.read,
       Call.compile "Hello" (Val.str "md") 0 0,
       Call.render [("embedLayout", Val.str "embed"), ("content", Val.str "front matter")],
       Call.compile "\x7b% layout \"embed\" %\x7d" (Val.str "md") 0 0,
       Call.render [("content", Val.str "<p>Hello</p>"), ("embedLayout", Val.str "embed"),
         ("content", Val.str "front matter")]] ∧
    Obj.get [("content", Val.str "<p>Hello</p>"), ("embedLayout", Val.str "embed"),
        ("content", Val.str "front matter")] "content" = some (Val.str "front matter") ∧
    (defaultEmbedFn demoCompiler (linkTo (helloPage [("embedLayout", Val.str "embed")]))
        somePage (stubOpts "/stub/")).result = Except.ok (some "[<p>Hello</p>]") := by
  refine ⟨?_, ?_, ?_, ?_⟩
  · rfl
  · decide
  · decide
  · rfl

/-- C8: for an existing link with both services present, a readable page
and a layout that resolves to `null`, the result is the render of the
compiled page content on the page data, and the calls made are the read,
one compile and one render. -/
theorem C8_null_layout_returns_content (compiler : Compiler) (link : WikilinkMeta)
    (currentPage : Page) (interlinker : Interlinker) (cfg : TemplateConfig)
    (ext : ExtensionMap) (page : Page) (template : Template) (language : Val)
    (contentFn : TemplateFn)
    (hex : link.«exists» = true) (hcfg : interlinker.templateConfig = some cfg)
    (hext : interlinker.extensionMap = some ext) (hpage : link.page = some page)
    (hread : page.read = Except.ok template)
    (hlayout : embedLayout page interlinker.opts = Except.ok Val.null)
    (hlang : embedLanguage page interlinker.opts = Except.ok language)
    (hcomp : compiler template.content language cfg ext = Except.ok contentFn) :
    (defaultEmbedFn compiler link currentPage interlinker).result
      = (contentFn page.data).map some ∧
    (defaultEmbedFn compiler link currentPage interlinker).calls
      = [Call.read, Call.compile template.content language cfg ext, Call.render page.data] := by
  rw [defaultEmbedFn_content compiler link currentPage interlinker cfg ext page template
    Val.null language contentFn hex hcfg hext hpage hread hlayout hlang hcomp]
  cases contentFn page.data <;> simp [Except.map]

/-- C8 at a page without layout field, under the default options (no
default layout): the embed is the rendered page content. -/
theorem C8_null_layout_returns_content_witness :
    (defaultEmbedFn demoCompiler (linkTo (helloPage [("title", Val.str "Hi")]))
        somePage (stubOpts "/stub/")).result = Except.ok (some "<p>Hello</p>") ∧
    (defaultEmbedFn demoCompiler (linkTo (helloPage [("title", Val.str "Hi")]))
        somePage (stubOpts "/stub/")).calls
      = [Call.read, Call.compile "Hello" (Val.str "md") 0 0,
         Call.render [("title", Val.str "Hi")]] :=
  C8_null_layout_returns_content demoCompiler (linkTo (helloPage [("title", Val.str "Hi")]))
    somePage (stubOpts "/stub/") 0 0 (helloPage [("title", Val.str "Hi")]) ⟨"Hello"⟩
    (Val.str "md") (fun _ => Except.ok "<p>Hello</p>") rfl rfl rfl rfl rfl rfl rfl rfl

/-- C9 as stated fails at a page whose data has a field named
`hasOwnProperty`: the page data has the language field `njk`, but the call
of line 44 throws a `TypeError` after the read, and nothing is compiled. -/
theorem C9_shadowed_method_stops_before_compile :
    Obj.get [("hasOwnProperty", Val.str "x"), ("embedLayoutLanguage", Val.str "njk")]
        "embedLayoutLanguage" = some (Val.str "njk") ∧
    (defaultEmbedFn demoCompiler
        (linkTo (helloPage
          [("hasOwnProperty", Val.str "x"), ("embedLayoutLanguage", Val.str "njk")]))
        somePage (stubOpts "/stub/")).calls = [Call.read] ∧
    (defaultEmbedFn demoCompiler
        (linkTo (helloPage
          [("hasOwnProperty", Val.str "x"), ("embedLayoutLanguage", Val.str "njk")]))
        somePage (stubOpts "/stub/")).result = Except.error Err.typeError := by
  refine ⟨?_, ?_, ?_⟩
  · decide
  · decide
  · rfl

/-- C9, amended: for an existing link with both services present and a
readable page whose data has no field named `hasOwnProperty`, the language
`L` passed to the compiler is the page-data field named by
`opts.layoutTemplateLangKey` when the page data has it, else the page's
`templateSyntax` when `opts.defaultLayoutLang` is `null`, else
`opts.defaultLayoutLang`; the first compile call is made with `L`, and so is
every later one. -/
theorem C9_embed_language (compiler : Compiler) (link : WikilinkMeta)
    (currentPage : Page) (interlinker : Interlinker) (cfg : TemplateConfig)
    (ext : ExtensionMap) (page : Page) (template : Template)
    (hex : link.«exists» = true) (hcfg : interlinker.templateConfig = some cfg)
    (hext : interlinker.extensionMap = some ext) (hpage : link.page = some page)
    (hread : page.read = Except.ok template)
    (hown : Obj.get page.data "hasOwnProperty" = none) :
    ∃ (L : Val) (rest : List Call),
      L = (match Obj.get page.data interlinker.opts.layoutTemplateLangKey with
            | some v => v
            | none =>
              if interlinker.opts.defaultLayoutLang = Val.null then page.templateSyntax
              else interlinker.opts.defaultLayoutLang) ∧
      (defaultEmbedFn compiler link currentPage interlinker).calls
        = Call.read :: Call.compile template.content L cfg ext :: rest ∧
      ∀ src l a b, Call.compile src l a b ∈ rest → l = L := by
  obtain ⟨L, hL, hlang⟩ : ∃ L : Val,
      L = (match Obj.get page.data interlinker.opts.layoutTemplateLangKey with
            | some v => v
            | none =>
              if interlinker.opts.defaultLayoutLang = Val.null then page.templateSyntax
              else interlinker.opts.defaultLayoutLang) ∧
      embedLanguage page interlinker.opts = Except.ok L :=
    ⟨_, rfl, embedLanguage_eq page interlinker.opts hown⟩
  obtain ⟨Y, hlayout⟩ : ∃ Y : Val, embedLayout page interlinker.opts = Except.ok Y :=
    ⟨_, embedLayout_eq page interlinker.opts hown⟩
  refine ⟨L, ?_⟩
  cases hc₁ : compiler template.content L cfg ext with
  | error e =>
    refine ⟨[], hL, ?_, by simp⟩
    rw [defaultEmbedFn_compile_error compiler link currentPage interlinker cfg ext page
      template Y L e hex hcfg hext hpage hread hlayout hlang hc₁]
  | ok contentFn =>
    rw [defaultEmbedFn_content compiler link currentPage interlinker cfg ext page template
      Y L contentFn hex hcfg hext hpage hread hlayout hlang hc₁]
    cases contentFn page.data with
    | error e => exact ⟨[Call.render page.data], hL, rfl, by simp⟩
    | ok content =>
      by_cases hl : Y = Val.null
      · exact ⟨[Call.render page.data], hL, by simp [hl], by simp⟩
      · simp only [hl, if_false]
        cases compiler (layoutTpl Y) L cfg ext with
        | error e =>
          refine ⟨_, hL, rfl, ?_⟩
          intro src l a b hmem
          simp at hmem
          exact hmem.2.1
        | ok tplFn =>
          refine ⟨_, hL, rfl, ?_⟩
          intro src l a b hmem
          simp at hmem
          exact hmem.2.1

/-- C9 at a page whose data names the language `njk`, with the default
language `liquid` and page syntax `md`: both compile calls use `njk`. -/
theorem C9_embed_language_witness :
    ∃ (L : Val) (rest : List Call),
      L = Val.str "njk" ∧
      (defaultEmbedFn demoCompiler
          (linkTo (helloPage [("embedLayoutLanguage", Val.str "njk")])) somePage
          ⟨⟨"/stub/", none, "embedLayout", "embedLayoutLanguage", Val.str "embed",
            Val.str "liquid"⟩, some 0, some 0⟩).calls
        = Call.read :: Call.compile "Hello" L 0 0 :: rest ∧
      ∀ src l a b, Call.compile src l a b ∈ rest → l = L :=
  C9_embed_language demoCompiler
    (linkTo (helloPage [("embedLayoutLanguage", Val.str "njk")])) somePage
    ⟨⟨"/stub/", none, "embedLayout", "embedLayoutLanguage", Val.str "embed",
      Val.str "liquid"⟩, some 0, some 0⟩ 0 0
    (helloPage [("embedLayoutLanguage", Val.str "njk")]) ⟨"Hello"⟩ rfl rfl rfl rfl rfl rfl

/-- C10 as stated fails at a page whose data has a field named
`hasOwnProperty`: the page data sets the layout field to `null`, but the
call of line 44 throws a `TypeError` after the read, so no layout is
selected and the content is not returned. -/
theorem C10_shadowed_method_selects_no_layout :
    Obj.get [("hasOwnProperty", Val.bool true), ("embedLayout", Val.null)] "embedLayout"
      = some Val.null ∧
    (defaultEmbedFn demoCompiler
        (linkTo (helloPage [("hasOwnProperty", Val.bool true), ("embedLayout", Val.null)]))
        somePage (stubOpts "/stub/")).result = Except.error Err.typeError ∧
    (defaultEmbedFn demoCompiler
        (linkTo (helloPage [("hasOwnProperty", Val.bool true), ("embedLayout", Val.null)]))
        somePage (stubOpts "/stub/")).calls = [Call.read] := by
  refine ⟨?_, ?_, ?_⟩
  · decide
  · rfl
  · decide

/-- C10, amended: for an existing link with both services present, a
readable page whose data has no field named `hasOwnProperty`, and a page
content that compiles and renders, the layout `Y` is the page-data field
named by `opts.layoutKey` when the page data has it, `null` included, and
`opts.defaultLayout` otherwise: when `Y` is `null` the result is the
rendered content and no layout is compiled, and otherwise the fourth call
compiles the directive that names `Y`. -/
theorem C10_embed_layout (compiler : Compiler) (link : WikilinkMeta)
    (currentPage : Page) (interlinker : Interlinker) (cfg : TemplateConfig)
    (ext : ExtensionMap) (page : Page) (template : Template) (language : Val)
    (contentFn : TemplateFn) (content : String)
    (hex : link.«exists» = true) (hcfg : interlinker.templateConfig = some cfg)
    (hext : interlinker.extensionMap = some ext) (hpage : link.page = some page)
    (hread : page.read = Except.ok template)
    (hown : Obj.get page.data "hasOwnProperty" = none)
    (hlang : embedLanguage page interlinker.opts = Except.ok language)
    (hcomp : compiler template.content language cfg ext = Except.ok contentFn)
    (hrender : contentFn page.data = Except.ok content) :
    ∃ Y : Val,
      Y = (match Obj.get page.data interlinker.opts.layoutKey with
            | some v => v
            | none => interlinker.opts.defaultLayout) ∧
      (Y = Val.null →
        (defaultEmbedFn compiler link currentPage interlinker).result
          = Except.ok (some content) ∧
        (defaultEmbedFn compiler link currentPage interlinker).calls
          = [Call.read, Call.compile template.content language cfg ext,
             Call.render page.data]) ∧
      (Y ≠ Val.null →
        ∃ rest, (defaultEmbedFn compiler link currentPage interlinker).calls
          = [Call.read, Call.compile template.content language cfg ext,
             Call.render page.data,
             Call.compile ("\x7b% layout \"" ++ Y.toStr ++ "\" %\x7d") language cfg ext]
            ++ rest) := by
  obtain ⟨Y, hY, hlayout⟩ : ∃ Y : Val,
      Y = (match Obj.get page.data interlinker.opts.layoutKey with
            | some v => v
            | none => interlinker.opts.defaultLayout) ∧
      embedLayout page interlinker.opts = Except.ok Y :=
    ⟨_, rfl, embedLayout_eq page interlinker.opts hown⟩
  refine ⟨Y, hY, ?_, ?_⟩
  · intro hl
    rw [defaultEmbedFn_content compiler link currentPage interlinker cfg ext page template
      Y language contentFn hex hcfg hext hpage hread hlayout hlang hcomp]
    simp [hrender, hl]
  · intro hl
    rw [defaultEmbedFn_content compiler link currentPage interlinker cfg ext page template
      Y language contentFn hex hcfg hext hpage hread hlayout hlang hcomp]
    simp only [hrender, hl, if_false]
    cases compiler (layoutTpl Y) language cfg ext with
    | error e => exact ⟨[], rfl⟩
    | ok tplFn => exact ⟨[_], rfl⟩

/-- C10 at a page whose data sets the layout field to `null` while the
default layout is `embed`: the page switches the layout off. -/
theorem C10_embed_layout_witness :
    ∃ Y : Val,
      Y = Val.null ∧
      (Y = Val.null →
        (defaultEmbedFn demoCompiler (linkTo (helloPage [("embedLayout", Val.null)])) somePage
            ⟨⟨"/stub/", none, "embedLayout", "embedLayoutLanguage", Val.str "embed",
              Val.null⟩, some 0, some 0⟩).result
          = Except.ok (some "<p>Hello</p>") ∧
        (defaultEmbedFn demoCompiler (linkTo (helloPage [("embedLayout", Val.null)])) somePage
            ⟨⟨"/stub/", none, "embedLayout", "embedLayoutLanguage", Val.str "embed",
              Val.null⟩, some 0, some 0⟩).calls
          = [Call.read, Call.compile "Hello" (Val.str "md") 0 0,
             Call.render [("embedLayout", Val.null)]]) ∧
      (Y ≠ Val.null →
        ∃ rest,
          (defaultEmbedFn demoCompiler (linkTo (helloPage [("embedLayout", Val.null)])) somePage
            ⟨⟨"/stub/", none, "embedLayout", "embedLayoutLanguage", Val.str "embed",
              Val.null⟩, some 0, some 0⟩).calls
          = [Call.read, Call.compile "Hello" (Val.str "md") 0 0,
             Call.render [("embedLayout", Val.null)],
             Call.compile ("\x7b% layout \"" ++ Y.toStr ++ "\" %\x7d") (Val.str "md") 0 0]
            ++ rest) :=
  C10_embed_layout demoCompiler (linkTo (helloPage [("embedLayout", Val.null)])) somePage
    ⟨⟨"/stub/", none, "embedLayout", "embedLayoutLanguage", Val.str "embed", Val.null⟩,
      some 0, some 0⟩ 0 0
    (helloPage [("embedLayout", Val.null)]) ⟨"Hello"⟩ (Val.str "md")
    (fun _ => Except.ok "<p>Hello</p>") "<p>Hello</p>" rfl rfl rfl rfl rfl rfl rfl rfl rfl

/-! ## Embed resolver: claims C11 and C16 -/

/-- C11: for an existing link with both services present and a target page,
an error `e` of the template read, of the compile of the page content, of
its render, of the compile of the layout directive or of the render of the
layout is the error `defaultEmbedFn` fails with; each step is the one the
code makes once the steps before it have succeeded and the layout and the
language are resolved. The `TypeError` of a shadowed `hasOwnProperty` is
passed on in the same way. -/
theorem C11_embed_failure_propagates (compiler : Compiler) (link : WikilinkMeta)
    (currentPage : Page) (interlinker : Interlinker) (cfg : TemplateConfig)
    (ext : ExtensionMap) (page : Page) (e : Err)
    (hex : link.«exists» = true) (hcfg : interlinker.templateConfig = some cfg)
    (hext : interlinker.extensionMap = some ext) (hpage : link.page = some page) :
    (page.read = Except.error e →
      (defaultEmbedFn compiler link currentPage interlinker).result = Except.error e) ∧
    (∀ template layout language, page.read = Except.ok template →
      embedLayout page interlinker.opts = Except.ok layout →
      embedLanguage page interlinker.opts = Except.ok language →
      compiler template.content language cfg ext = Except.error e →
      (defaultEmbedFn compiler link currentPage interlinker).result = Except.error e) ∧
    (∀ template layout language contentFn, page.read = Except.ok template →
      embedLayout page interlinker.opts = Except.ok layout →
      embedLanguage page interlinker.opts = Except.ok language →
      compiler template.content language cfg ext = Except.ok contentFn →
      contentFn page.data = Except.error e →
      (defaultEmbedFn compiler link currentPage interlinker).result = Except.error e) ∧
    (∀ template layout language contentFn content, page.read = Except.ok template →
      embedLayout page interlinker.opts = Except.ok layout →
      embedLanguage page interlinker.opts = Except.ok language →
      compiler template.content language cfg ext = Except.ok contentFn →
      contentFn page.data = Except.ok content →
      layout ≠ Val.null →
      compiler (layoutTpl layout) language cfg ext = Except.error e →
      (defaultEmbedFn compiler link currentPage interlinker).result = Except.error e) ∧
    (∀ template layout language contentFn content tplFn, page.read = Except.ok template →
      embedLayout page interlinker.opts = Except.ok layout →
      embedLanguage page interlinker.opts = Except.ok language →
      compiler template.content language cfg ext = Except.ok contentFn →
      contentFn page.data = Except.ok content →
      layout ≠ Val.null →
      compiler (layoutTpl layout) language cfg ext = Except.ok tplFn →
      tplFn (("content", Val.str content) :: page.data) = Except.error e →
      (defaultEmbedFn compiler link currentPage interlinker).result = Except.error e) ∧
    (∀ template, page.read = Except.ok template →
      Obj.get page.data "hasOwnProperty" ≠ none →
      (defaultEmbedFn compiler link currentPage interlinker).result
        = Except.error Err.typeError) := by
  refine ⟨?_, ?_, ?_, ?_, ?_, ?_⟩
  · intro hread
    unfold defaultEmbedFn
    simp only [hex, hcfg, hext, hpage, hread]
  · intro template layout language hread hlayout hlang hcomp
    rw [defaultEmbedFn_compile_error compiler link currentPage interlinker cfg ext page
      template layout language e hex hcfg hext hpage hread hlayout hlang hcomp]
  · intro template layout language contentFn hread hlayout hlang hcomp hrender
    rw [defaultEmbedFn_content compiler link currentPage interlinker cfg ext page template
      layout language contentFn hex hcfg hext hpage hread hlayout hlang hcomp]
    simp only [hrender]
  · intro template layout language contentFn content hread hlayout hlang hcomp hrender hl hcomp₂
    rw [defaultEmbedFn_content compiler link currentPage interlinker cfg ext page template
      layout language contentFn hex hcfg hext hpage hread hlayout hlang hcomp]
    simp only [hrender, hl, if_false, hcomp₂]
  · intro template layout language contentFn content tplFn hread hlayout hlang hcomp hrender hl
      hcomp₂ hrender₂
    rw [defaultEmbedFn_content compiler link currentPage interlinker cfg ext page template
      layout language contentFn hex hcfg hext hpage hread hlayout hlang hcomp]
    simp only [hrender, hl, if_false, hcomp₂, hrender₂]
    rfl
  · intro template hread hown
    rw [defaultEmbedFn_shadowed compiler link currentPage interlinker cfg ext page template
      hex hcfg hext hpage hread hown]

/-- C11 at a page whose template read fails with `ENOENT`, and at a page
whose layout `embed` fails to render with `no layout`. -/
theorem C11_embed_failure_propagates_witness :
    (defaultEmbedFn demoCompiler
        (linkTo ⟨[], Val.str "md", Except.error (Err.thrown "ENOENT")⟩)
        somePage (stubOpts "/stub/")).result = Except.error (Err.thrown "ENOENT") ∧
    (defaultEmbedFn
        (fun src _ _ _ =>
          if startsWith src "\x7b% layout" then
            Except.ok (fun _ => Except.error (Err.thrown "no layout"))
          else Except.ok (fun _ => Except.ok src))
        (linkTo (helloPage [("embedLayout", Val.str "embed")]))
        somePage (stubOpts "/stub/")).result = Except.error (Err.thrown "no layout") :=
  ⟨(C11_embed_failure_propagates demoCompiler
      (linkTo ⟨[], Val.str "md", Except.error (Err.thrown "ENOENT")⟩)
      somePage (stubOpts "/stub/") 0 0 ⟨[], Val.str "md", Except.error (Err.thrown "ENOENT")⟩
      (Err.thrown "ENOENT") rfl rfl rfl rfl).1 rfl,
   (C11_embed_failure_propagates
      (fun src _ _ _ =>
        if startsWith src "\x7b% layout" then
          Except.ok (fun _ => Except.error (Err.thrown "no layout"))
        else Except.ok (fun _ => Except.ok src))
      (linkTo (helloPage [("embedLayout", Val.str "embed")]))
      somePage (stubOpts "/stub/") 0 0 (helloPage [("embedLayout", Val.str "embed")])
      (Err.thrown "no layout") rfl rfl rfl rfl).2.2.2.2.1 ⟨"Hello"⟩ (Val.str "embed")
      (Val.str "md") (fun _ => Except.ok "Hello") "Hello"
      (fun _ => Except.error (Err.thrown "no layout")) rfl rfl rfl rfl rfl (by decide) rfl rfl⟩

/-- C16: for an existing link with both services present, a readable page
whose content compiles and renders, and a layout `Y` other than `null`, the
fourth call compiles the source `{% layout "Y" %}`, with `Y` inserted as it
is, under the language and the two services of the first compile call; the
source is a function of `Y` alone. -/
theorem C16_layout_directive (compiler : Compiler) (link : WikilinkMeta)
    (currentPage : Page) (interlinker : Interlinker) (cfg : TemplateConfig)
    (ext : ExtensionMap) (page : Page) (template : Template) (Y language : Val)
    (contentFn : TemplateFn) (content : String)
    (hex : link.«exists» = true) (hcfg : interlinker.templateConfig = some cfg)
    (hext : interlinker.extensionMap = some ext) (hpage : link.page = some page)
    (hread : page.read = Except.ok template)
    (hlayout : embedLayout page interlinker.opts = Except.ok Y)
    (hlang : embedLanguage page interlinker.opts = Except.ok language)
    (hcomp : compiler template.content language cfg ext = Except.ok contentFn)
    (hrender : contentFn page.data = Except.ok content)
    (hnull : Y ≠ Val.null) :
    (∃ rest : List Call,
      (defaultEmbedFn compiler link currentPage interlinker).calls
        = [Call.read,
           Call.compile template.content language cfg ext,
           Call.render page.data,
           Call.compile ("\x7b% layout \"" ++ Y.toStr ++ "\" %\x7d") language cfg ext]
          ++ rest) ∧
    (∀ L : String, Y = Val.str L → layoutTpl Y = "\x7b% layout \"" ++ L ++ "\" %\x7d") := by
  constructor
  · rw [defaultEmbedFn_content compiler link currentPage interlinker cfg ext page template
      Y language contentFn hex hcfg hext hpage hread hlayout hlang hcomp]
    simp only [hrender, hnull, if_false]
    cases compiler (layoutTpl Y) language cfg ext with
    | error e => exact ⟨[], rfl⟩
    | ok tplFn => exact ⟨[_], rfl⟩
  · intro L hL
    rw [hL]
    rfl

/-- C16 at a page with layout `embed`, page syntax `md` and language field
`njk`: the directive is compiled as `njk`, like the page content. -/
theorem C16_layout_directive_witness :
    ∃ rest : List Call,
      (defaultEmbedFn demoCompiler
          (linkTo (helloPage [("embedLayout", Val.str "embed"),
            ("embedLayoutLanguage", Val.str "njk")]))
          somePage (stubOpts "/stub/")).calls
        = [Call.read,
           Call.compile "Hello" (Val.str "njk") 0 0,
           Call.render [("embedLayout", Val.str "embed"), ("embedLayoutLanguage", Val.str "njk")],
           Call.compile "\x7b% layout \"embed\" %\x7d" (Val.str "njk") 0 0] ++ rest :=
  (C16_layout_directive demoCompiler
    (linkTo (helloPage [("embedLayout", Val.str "embed"),
      ("embedLayoutLanguage", Val.str "njk")]))
    somePage (stubOpts "/stub/") 0 0
    (helloPage [("embedLayout", Val.str "embed"), ("embedLayoutLanguage", Val.str "njk")])
    ⟨"Hello"⟩ (Val.str "embed") (Val.str "njk") (fun _ => Except.ok "<p>Hello</p>")
    "<p>Hello</p>" rfl rfl rfl rfl rfl rfl rfl rfl rfl (by decide)).1

/-! ## Lemmas on the image resolver -/

theorem splitSlash_ne_nil (cs : List Char) : splitSlash cs ≠ [] := by
  cases cs with
  | nil => simp [splitSlash]
  | cons c cs =>
    unfold splitSlash
    cases splitSlash cs <;> split_ifs <;> simp

theorem splitSlash_of_not_mem (seg : List Char) (h : '/' ∉ seg) : splitSlash seg = [seg] := by
  induction seg with
  | nil => rfl
  | cons c cs ih =>
    have hc : c ≠ '/' := fun hc => h (by simp [hc])
    have hcs : '/' ∉ cs := fun hcs => h (List.mem_cons_of_mem _ hcs)
    unfold splitSlash
    rw [ih hcs]
    simp [hc]

theorem splitSlash_append_slash (d r : List Char) :
    splitSlash (d ++ '/' :: r) = splitSlash d ++ splitSlash r := by
  induction d with
  | nil =>
    obtain ⟨s, ss, hs⟩ := List.exists_cons_of_ne_nil (splitSlash_ne_nil r)
    have h₁ : splitSlash ('/' :: r) = [] :: s :: ss := by
      rw [splitSlash]
      simp only [hs, if_true]
    rw [List.nil_append, h₁, hs]
    rfl
  | cons c d ih =>
    obtain ⟨s, ss, hs⟩ := List.exists_cons_of_ne_nil (splitSlash_ne_nil d)
    rw [List.cons_append, splitSlash, ih, splitSlash, hs]
    by_cases hc : c = '/' <;> simp [hc]

theorem getLastD_splitSlash (d seg : List Char) (h : '/' ∉ seg) :
    (splitSlash (d ++ '/' :: seg)).getLastD [] = seg := by
  rw [splitSlash_append_slash, splitSlash_of_not_mem seg h]
  simp

theorem extMatches_cons_of_dot_mem (c : Char) (cs : List Char) (h : '.' ∈ cs) :
    extMatches (c :: cs) = false := by
  have : cs.all (fun x => x ≠ '/' && x ≠ '.') = false := by
    rw [List.all_eq_false]
    exact ⟨'.', h, by simp⟩
  simp only [extMatches, this, Bool.and_false]

theorem stripExt_of_not_mem (seg : List Char) (h : '.' ∉ seg) : stripExt seg = seg := by
  induction seg with
  | nil => rfl
  | cons c cs ih =>
    have hc : c ≠ '.' := fun hc => h (by simp [hc])
    have hcs : '.' ∉ cs := fun hcs => h (List.mem_cons_of_mem _ hcs)
    rw [stripExt, ih hcs]
    simp [extMatches, hc]

theorem stripExt_extension (pre suf : List Char) (hdot : '.' ∉ suf) (hslash : '/' ∉ suf)
    (hne : suf ≠ []) : stripExt (pre ++ '.' :: suf) = pre := by
  induction pre with
  | nil =>
    have hall : suf.all (fun x => x ≠ '/' && x ≠ '.') = true := by
      rw [List.all_eq_true]
      intro x hx
      have h1 : x ≠ '/' := fun h => hslash (h ▸ hx)
      have h2 : x ≠ '.' := fun h => hdot (h ▸ hx)
      simp [h1, h2]
    have hemp : suf.isEmpty = false := by
      cases suf with
      | nil => exact absurd rfl hne
      | cons _ _ => rfl
    simp only [List.nil_append, stripExt, extMatches, hall, hemp]
    simp
  | cons c p ih =>
    rw [List.cons_append, stripExt, ih,
      extMatches_cons_of_dot_mem c (p ++ '.' :: suf) (by simp)]
    simp

theorem stripExt_trailing_dot (pre : List Char) : stripExt (pre ++ ['.']) = pre ++ ['.'] := by
  induction pre with
  | nil => simp [stripExt, extMatches]
  | cons c p ih =>
    rw [List.cons_append, stripExt, ih, extMatches_cons_of_dot_mem c (p ++ ['.']) (by simp)]
    simp

/-! ## Lemmas on the link resolver -/

theorem startsWith_append (h x p : String) (hp : startsWith h p = true) :
    startsWith (h ++ x) p = true := by
  unfold startsWith at hp ⊢
  rw [List.isPrefixOf_iff_prefix] at hp ⊢
  rw [String.data_append]
  exact hp.trans (List.prefix_append _ _)

theorem startsWith_empty (h : String) : startsWith h "" = true := by
  unfold startsWith
  rw [List.isPrefixOf_iff_prefix]
  exact List.nil_prefix

theorem linkText_eq (link : WikilinkMeta) :
    linkText link =
      match link.title with
      | some t => encodeHTML t
      | none => encodeHTML link.name := by
  unfold linkText
  cases link.title <;> rfl

/-- The string href after the anchor step is the href, or the href followed
by `#` and the anchor. -/
theorem effectiveHref_url (link : WikilinkMeta) (h : String) (hhref : link.href = Href.url h) :
    effectiveHref link = Href.url h ∨ ∃ a, effectiveHref link = Href.url (h ++ "#" ++ a) := by
  unfold effectiveHref
  split_ifs
  · right
    exact ⟨link.anchor.getD "", by rw [hhref]; rfl⟩
  · left
    exact hhref

theorem defaultResolvingFn_span (link : WikilinkMeta) (currentPage : Page)
    (interlinker : Interlinker) (E : String) (hE : effectiveHref link = Href.url E)
    (hs : startsWith E interlinker.opts.stubUrl = true) :
    defaultResolvingFn link currentPage interlinker
      = "<span title=\"" ++ linkText link ++ " was not created yet\" class=\"dead-wikilink\">"
          ++ linkText link ++ "</span>" := by
  unfold defaultResolvingFn
  simp only [hE, hs, if_true]

theorem span_not_anchor_tag (rest : String) : startsWith ("<span title=\"" ++ rest) "<a " = false := by
  unfold startsWith
  rw [String.data_append]
  rfl

/-! ## Link resolver: claims C17 and C18 -/

/-- C17: when the string `href` itself starts with `opts.stubUrl`, the result
is the `dead-wikilink` span on the encoded title or name for every anchor,
and two such links with the same title and name resolve to the same text. -/
theorem C17_anchor_keeps_stub_dead (link : WikilinkMeta) (currentPage : Page)
    (interlinker : Interlinker) (h : String) (hhref : link.href = Href.url h)
    (hstub : startsWith h interlinker.opts.stubUrl = true) :
    defaultResolvingFn link currentPage interlinker
      = "<span title=\"" ++
          (match link.title with
            | some t => encodeHTML t
            | none => encodeHTML link.name)
          ++ " was not created yet\" class=\"dead-wikilink\">" ++
          (match link.title with
            | some t => encodeHTML t
            | none => encodeHTML link.name)
          ++ "</span>" ∧
    ∀ (link₂ : WikilinkMeta) (page₂ : Page) (h₂ : String), link₂.href = Href.url h₂ →
      startsWith h₂ interlinker.opts.stubUrl = true →
      link₂.title = link.title → link₂.name = link.name →
      defaultResolvingFn link₂ page₂ interlinker
        = defaultResolvingFn link currentPage interlinker := by
  have key : ∀ (l : WikilinkMeta) (p : Page) (g : String), l.href = Href.url g →
      startsWith g interlinker.opts.stubUrl = true →
      defaultResolvingFn l p interlinker
        = "<span title=\"" ++ linkText l ++ " was not created yet\" class=\"dead-wikilink\">"
            ++ linkText l ++ "</span>" := by
    intro l p g hg hs
    rcases effectiveHref_url l g hg with hE | ⟨a, hE⟩
    · exact defaultResolvingFn_span l p interlinker g hE hs
    · refine defaultResolvingFn_span l p interlinker _ hE ?_
      rw [String.append_assoc]
      exact startsWith_append g _ _ hs
  constructor
  · rw [key link currentPage h hhref hstub, linkText_eq]
  · intro link₂ page₂ h₂ hhref₂ hstub₂ ht hn
    rw [key link currentPage h hhref hstub, key link₂ page₂ h₂ hhref₂ hstub₂]
    unfold linkText
    rw [ht, hn]

/-- C17 at the stub href `/stub/draft` with the anchors `intro` and `end`. -/
theorem C17_anchor_keeps_stub_dead_witness :
    defaultResolvingFn ⟨"Draft", none, Href.url "/stub/draft", some "end", false, none, "[[Draft#end]]"⟩
        somePage (stubOpts "/stub/")
      = "<span title=\"Draft was not created yet\" class=\"dead-wikilink\">Draft</span>" :=
  (C17_anchor_keeps_stub_dead
    ⟨"Draft", none, Href.url "/stub/draft", some "end", false, none, "[[Draft#end]]"⟩
    somePage (stubOpts "/stub/") "/stub/draft" rfl (by decide)).1

/-- C18: when `opts.stubUrl` is the empty string, every link with a string
`href` resolves to the `dead-wikilink` span, which is no anchor tag. -/
theorem C18_empty_stub_url (link : WikilinkMeta) (currentPage : Page)
    (interlinker : Interlinker) (h : String) (hhref : link.href = Href.url h)
    (hstub : interlinker.opts.stubUrl = "") :
    defaultResolvingFn link currentPage interlinker
      = "<span title=\"" ++
          (match link.title with
            | some t => encodeHTML t
            | none => encodeHTML link.name)
          ++ " was not created yet\" class=\"dead-wikilink\">" ++
          (match link.title with
            | some t => encodeHTML t
            | none => encodeHTML link.name)
          ++ "</span>" ∧
    startsWith (defaultResolvingFn link currentPage interlinker) "<a " = false := by
  have key : defaultResolvingFn link currentPage interlinker
      = "<span title=\"" ++ linkText link ++ " was not created yet\" class=\"dead-wikilink\">"
          ++ linkText link ++ "</span>" := by
    rcases effectiveHref_url link h hhref with hE | ⟨a, hE⟩
    · exact defaultResolvingFn_span link currentPage interlinker _ hE
        (by rw [hstub]; exact startsWith_empty _)
    · exact defaultResolvingFn_span link currentPage interlinker _ hE
        (by rw [hstub]; exact startsWith_empty _)
  constructor
  · rw [key, linkText_eq]
  · rw [key]
    simp only [String.append_assoc]
    exact span_not_anchor_tag _

/-- C18 at the link `Home` with href `/home` and anchor `top`, under an
empty stub prefix. -/
theorem C18_empty_stub_url_witness :
    defaultResolvingFn ⟨"Home", none, Href.url "/home", some "top", true, none, "[[Home#top]]"⟩
        somePage (stubOpts "")
      = "<span title=\"Home was not created yet\" class=\"dead-wikilink\">Home</span>" :=
  (C18_empty_stub_url
    ⟨"Home", none, Href.url "/home", some "top", true, none, "[[Home#top]]"⟩
    somePage (stubOpts "") "/home" rfl rfl).1

/-! ## Image embed resolver: claims C12 to C15 and C19 -/

theorem filename_of_segment (link : WikilinkMeta) (seg : List Char) (hseg : '/' ∉ seg)
    (hname : link.name.data = seg ∨ ∃ d, link.name.data = d ++ '/' :: seg) :
    filename link = String.mk (stripExt seg) := by
  unfold filename
  rcases hname with hn | ⟨d, hn⟩
  · rw [hn, splitSlash_of_not_mem seg hseg]
    rfl
  · rw [hn, getLastD_splitSlash d seg hseg]

theorem altText_of_no_title (link : WikilinkMeta) (h : link.title = none ∨ link.title = some "") :
    altText link = encodeHTML (filename link) := by
  unfold altText
  rcases h with h | h <;> simp [h, truthy]

/-- C12: the `src` of the returned tag is `/` followed by the name when the
name contains `/`, whatever `opts.imagesFolder` is; otherwise it is the
name after `opts.imagesFolder`, or after `/images/` when the option is
unset (absent or empty). The path is inserted as it is. -/
theorem C12_image_path (link : WikilinkMeta) (currentPage : Page)
    (interlinker : Interlinker) :
    defaultImageEmbedFn link currentPage interlinker
      = "<img src=\"" ++
          (if '/' ∈ link.name.data then "/" ++ link.name
           else
            (match interlinker.opts.imagesFolder with
              | some folder => if folder = "" then "/images/" else folder
              | none => "/images/") ++ link.name)
          ++ "\" alt=\"" ++ altText link ++ "\" />" := by
  unfold defaultImageEmbedFn imagePath
  by_cases hs : '/' ∈ link.name.data
  · simp [hs]
  · rcases hf : interlinker.opts.imagesFolder with _ | folder
    · simp [hs, truthy]
    · by_cases he : folder = "" <;> simp [hs, truthy, he]

/-- C12 at the names `diagram.png` and `sub/diagram.png` under the default
options, and at `diagram.png` under the folder `/media/`. -/
theorem C12_image_path_witness :
    defaultImageEmbedFn ⟨"diagram.png", none, Href.no, none, true, none, "![[diagram.png]]"⟩
        somePage (stubOpts "/stub/")
      = "<img src=\"/images/diagram.png\" alt=\"diagram\" />" ∧
    defaultImageEmbedFn ⟨"sub/diagram.png", none, Href.no, none, true, none, "![[sub/diagram.png]]"⟩
        somePage (stubOpts "/stub/")
      = "<img src=\"/sub/diagram.png\" alt=\"diagram\" />" ∧
    defaultImageEmbedFn ⟨"diagram.png", none, Href.no, none, true, none, "![[diagram.png]]"⟩
        somePage ⟨⟨"/stub/", some "/media/", "embedLayout", "embedLayoutLanguage", Val.null,
          Val.null⟩, some 0, some 0⟩
      = "<img src=\"/media/diagram.png\" alt=\"diagram\" />" :=
  ⟨C12_image_path ⟨"diagram.png", none, Href.no, none, true, none, "![[diagram.png]]"⟩
      somePage (stubOpts "/stub/"),
   C12_image_path ⟨"sub/diagram.png", none, Href.no, none, true, none, "![[sub/diagram.png]]"⟩
      somePage (stubOpts "/stub/"),
   C12_image_path ⟨"diagram.png", none, Href.no, none, true, none, "![[diagram.png]]"⟩
      somePage ⟨⟨"/stub/", some "/media/", "embedLayout", "embedLayoutLanguage", Val.null,
        Val.null⟩, some 0, some 0⟩⟩

/-- C13 as stated fails at the name `file.`: the expression of line 99 asks
for one character or more after the dot, so the final dot stays and the alt
text is the encoding of `file.`, not of `file`. -/
theorem C13_trailing_dot_is_kept :
    filename ⟨"file.", none, Href.no, none, true, none, "![[file.]]"⟩ = "file." ∧
    defaultImageEmbedFn ⟨"file.", none, Href.no, none, true, none, "![[file.]]"⟩
        somePage (stubOpts "/stub/")
      = "<img src=\"/images/file.\" alt=\"" ++ encodeHTML "file." ++ "\" />" ∧
    defaultImageEmbedFn ⟨"file.", none, Href.no, none, true, none, "![[file.]]"⟩
        somePage (stubOpts "/stub/")
      ≠ "<img src=\"/images/file.\" alt=\"" ++ encodeHTML "file" ++ "\" />" := by
  decide

/-- C13, amended: for a link without title, with `seg` the last
`/`-separated segment of the name, the alt text is the encoding of `seg` up
to its final dot when at least one character follows that dot, and the
encoding of the whole of `seg` when it holds no dot or ends in a dot. -/
theorem C13_default_alt_text (link : WikilinkMeta) (currentPage : Page)
    (interlinker : Interlinker) (seg : List Char) (htitle : link.title = none)
    (hseg : '/' ∉ seg)
    (hname : link.name.data = seg ∨ ∃ d, link.name.data = d ++ '/' :: seg) :
    (∀ pre suf, seg = pre ++ '.' :: suf → '.' ∉ suf → suf ≠ [] →
      defaultImageEmbedFn link currentPage interlinker
        = "<img src=\"" ++ imagePath link interlinker.opts ++ "\" alt=\""
            ++ encodeHTML (String.mk pre) ++ "\" />") ∧
    (('.' ∉ seg ∨ ∃ pre, seg = pre ++ ['.']) →
      defaultImageEmbedFn link currentPage interlinker
        = "<img src=\"" ++ imagePath link interlinker.opts ++ "\" alt=\""
            ++ encodeHTML (String.mk seg) ++ "\" />") := by
  have halt : altText link = encodeHTML (String.mk (stripExt seg)) := by
    rw [altText_of_no_title link (Or.inl htitle), filename_of_segment link seg hseg hname]
  unfold defaultImageEmbedFn
  rw [halt]
  constructor
  · intro pre suf hsplit hdot hne
    have hslash : '/' ∉ suf := fun hm => hseg (by rw [hsplit]; simp [hm])
    rw [hsplit, stripExt_extension pre suf hdot hslash hne]
  · rintro (hno | ⟨pre, hpre⟩)
    · rw [stripExt_of_not_mem seg hno]
    · rw [hpre, stripExt_trailing_dot]

/-- C13 at the name `My Chart.png`, and at `docs/chart-2.png`, whose alt
text comes from the last segment. -/
theorem C13_default_alt_text_witness :
    defaultImageEmbedFn ⟨"My Chart.png", none, Href.no, none, true, none, "![[My Chart.png]]"⟩
        somePage (stubOpts "/stub/")
      = "<img src=\"/images/My Chart.png\" alt=\"My Chart\" />" ∧
    defaultImageEmbedFn
        ⟨"docs/chart-2.png", none, Href.no, none, true, none, "![[docs/chart-2.png]]"⟩
        somePage (stubOpts "/stub/")
      = "<img src=\"/docs/chart-2.png\" alt=\"chart-2\" />" :=
  ⟨(C13_default_alt_text
      ⟨"My Chart.png", none, Href.no, none, true, none, "![[My Chart.png]]"⟩
      somePage (stubOpts "/stub/") "My Chart.png".data rfl (by decide) (Or.inl rfl)).1
      "My Chart".data "png".data rfl (by decide) (by decide),
   (C13_default_alt_text
      ⟨"docs/chart-2.png", none, Href.no, none, true, none, "![[docs/chart-2.png]]"⟩
      somePage (stubOpts "/stub/") "chart-2.png".data rfl (by decide)
      (Or.inr ⟨"docs".data, rfl⟩)).1
      "chart-2".data "png".data rfl (by decide) (by decide)⟩

/-- C14 as stated fails at the empty title: for the name `photo.png` with
title `""` the alt text is the filename `photo`, not the empty text. -/
theorem C14_empty_title_uses_filename :
    defaultImageEmbedFn ⟨"photo.png", some "", Href.no, none, true, none, "![[photo.png|]]"⟩
        somePage (stubOpts "/stub/")
      = "<img src=\"/images/photo.png\" alt=\"photo\" />" ∧
    defaultImageEmbedFn ⟨"photo.png", some "", Href.no, none, true, none, "![[photo.png|]]"⟩
        somePage (stubOpts "/stub/")
      ≠ "<img src=\"/images/photo.png\" alt=\"" ++ encodeHTML "" ++ "\" />" := by
  decide

/-- C14, amended: for a title that is a string other than the empty one the
alt text is the encoded title, whatever the name is; the filename is used
when the title is absent or the empty string. -/
theorem C14_titled_alt_text (link : WikilinkMeta) (currentPage : Page)
    (interlinker : Interlinker) :
    (∀ t : String, link.title = some t → t ≠ "" →
      defaultImageEmbedFn link currentPage interlinker
        = "<img src=\"" ++ imagePath link interlinker.opts ++ "\" alt=\""
            ++ encodeHTML t ++ "\" />") ∧
    ((link.title = none ∨ link.title = some "") →
      defaultImageEmbedFn link currentPage interlinker
        = "<img src=\"" ++ imagePath link interlinker.opts ++ "\" alt=\""
            ++ encodeHTML (filename link) ++ "\" />") := by
  unfold defaultImageEmbedFn
  constructor
  · intro t ht hne
    simp [altText, ht, truthy, hne]
  · intro h
    rw [altText_of_no_title link h]

/-- C14 at the title `Sales chart` for the name `q3.png`. -/
theorem C14_titled_alt_text_witness :
    defaultImageEmbedFn ⟨"q3.png", some "Sales chart", Href.no, none, true, none, "![[q3.png]]"⟩
        somePage (stubOpts "/stub/")
      = "<img src=\"/images/q3.png\" alt=\"Sales chart\" />" :=
  (C14_titled_alt_text
    ⟨"q3.png", some "Sales chart", Href.no, none, true, none, "![[q3.png]]"⟩
    somePage (stubOpts "/stub/")).1 "Sales chart" rfl (by decide)

theorem pop_splitSlash (cs : List Char) :
    pop (splitSlash cs) = some ((splitSlash cs).getLastD []) := by
  unfold pop
  obtain ⟨seg, segs, h⟩ := List.exists_cons_of_ne_nil (splitSlash_ne_nil cs)
  rw [h]
  simp [List.getLast?_cons]

/-- C15: for every link, title and options the steps of lines 91 to 103 end
without a `TypeError`, because `split` never gives an empty array; the
value is the `img` tag on the image path and the alt text, the alt text
holds no double quote, and for the empty name, no title and no images
folder it is the tag on `/images/` with an empty alt text. -/
theorem C15_image_total (link : WikilinkMeta) (currentPage : Page)
    (interlinker : Interlinker) :
    (∃ P A : String,
      defaultImageEmbedFnSteps link currentPage interlinker
        = Except.ok ("<img src=\"" ++ P ++ "\" alt=\"" ++ A ++ "\" />") ∧
      '"' ∉ A.data) ∧
    defaultImageEmbedFnSteps link currentPage interlinker
      = Except.ok (defaultImageEmbedFn link currentPage interlinker) ∧
    (∀ (href : Href) (anchor : Option String) (ex : Bool) (page : Option Page) (text : String)
      (stubUrl layoutKey layoutTemplateLangKey : String) (defaultLayout defaultLayoutLang : Val)
      (templateConfig : Option TemplateConfig) (extensionMap : Option ExtensionMap),
      defaultImageEmbedFnSteps ⟨"", none, href, anchor, ex, page, text⟩ currentPage
          ⟨⟨stubUrl, none, layoutKey, layoutTemplateLangKey, defaultLayout, defaultLayoutLang⟩,
            templateConfig, extensionMap⟩
        = Except.ok "<img src=\"/images/\" alt=\"\" />") := by
  have hsteps : defaultImageEmbedFnSteps link currentPage interlinker
      = Except.ok (defaultImageEmbedFn link currentPage interlinker) := by
    unfold defaultImageEmbedFnSteps
    simp only [pop_splitSlash]
    rfl
  refine ⟨⟨imagePath link interlinker.opts, altText link, ?_, ?_⟩, hsteps, ?_⟩
  · rw [hsteps]
    rfl
  · intro hq
    exact encodeHTML_safe _ _ hq (Or.inr (Or.inr (Or.inl rfl)))
  · intros
    rfl

/-- C19: when `opts.imagesFolder` is the empty string and the name holds no
`/`, the `src` is the name after `/images/`, as for an unset option. -/
theorem C19_empty_images_folder (link : WikilinkMeta) (currentPage : Page)
    (interlinker : Interlinker) (hfolder : interlinker.opts.imagesFolder = some "")
    (hname : '/' ∉ link.name.data) :
    defaultImageEmbedFn link currentPage interlinker
      = "<img src=\"" ++ ("/images/" ++ link.name) ++ "\" alt=\"" ++ altText link ++ "\" />" := by
  unfold defaultImageEmbedFn imagePath
  simp [hfolder, hname, truthy]

/-- C19 at the name `diagram.png` under an empty images folder. -/
theorem C19_empty_images_folder_witness :
    defaultImageEmbedFn ⟨"diagram.png", none, Href.no, none, true, none, "![[diagram.png]]"⟩
        somePage ⟨⟨"/stub/", some "", "embedLayout", "embedLayoutLanguage", Val.null,
          Val.null⟩, some 0, some 0⟩
      = "<img src=\"/images/diagram.png\" alt=\"diagram\" />" :=
  C19_empty_images_folder
    ⟨"diagram.png", none, Href.no, none, true, none, "![[diagram.png]]"⟩
    somePage ⟨⟨"/stub/", some "", "embedLayout", "embedLayoutLanguage", Val.null,
      Val.null⟩, some 0, some 0⟩ rfl (by decide)

end Resolvers
